import Mathlib

/-
Verification development for the PyMARE repository, file pymare/core.py.

This file gives a shallow embedding of the Dataset class (its
constructor, its weight and predictor resolution helpers and its alias
properties) and of the meta_regression entry point, and proves theorems
about the embedded definitions.

Modelling conventions:
- Study-level real values are modelled as rationals; the K-length column
  vectors produced by ensure_2d are modelled as K-length lists, and K x P
  matrices as lists of K rows.
- Python exceptions are modelled by the PyErr type; fallible code returns
  Except PyErr.
- A central point of the embedding is the call
  isinstance(weights, "str") on line 52 of core.py: its second argument
  is the string literal "str", not the type str.  The Python builtin
  isinstance raises TypeError whenever its second argument is not a type
  (or tuple of types); CPython reports it as
  "isinstance() arg 2 must be a type or tuple of types, not str".
  The embedded isinstance below therefore takes a classinfo argument that
  is either a genuine type or a string literal, returning a Bool in the
  first case and raising TypeError in the second, exactly as CPython does.
-/

namespace PyMARE

/-- Python exception kinds relevant to core.py: TypeError (raised by the
builtin isinstance when its second argument is not a type), ValueError
(raised explicitly by the Dataset helpers), KeyError (raised by the
dictionary lookup in meta_regression) and AttributeError (raised by
Dataset.__getattr__). -/
inductive PyErr where
  | typeError (msg : String)
  | valueError (msg : String)
  | keyError (key : String)
  | attributeError
  deriving DecidableEq

/-- Python values that can flow through the weights argument of Dataset:
the constant None, a string, or a numeric array. -/
inductive PyVal where
  | pynone
  | str (s : String)
  | arr (xs : List ℚ)
  deriving DecidableEq

/-- Column labels of a pandas DataFrame as used in core.py: either an
explicit string label or an automatically assigned integer label. -/
inductive PyLabel where
  | named (name : String)
  | idx (k : Nat)
  deriving DecidableEq

/-- Message of the TypeError raised by the CPython builtin isinstance when
its second argument is a str instance instead of a type. -/
def isinstanceArg2Msg : String :=
  "isinstance() arg 2 must be a type or tuple of types, not str"

/-- Second argument of an isinstance call: either the builtin type str,
or a string object appearing where a type is expected.  Line 52 of
core.py passes the string literal "str". -/
inductive ClassInfo where
  | strType
  | strLiteral (s : String)
  deriving DecidableEq

/-- The Python builtin isinstance, restricted to the class arguments that
occur in this file.  Against the genuine type str it tests whether the
value is a string; against a string object it raises TypeError, as the
CPython implementation does for any second argument that is not a type
or tuple of types. -/
def isinstance (v : PyVal) : ClassInfo → Except PyErr Bool
  | ClassInfo.strType => Except.ok (match v with | PyVal.str _ => true | _ => false)
  | ClassInfo.strLiteral _ => Except.error (PyErr.typeError isinstanceArg2Msg)

/-- The method of the Python str class that lowercases a string.  The
embedding lowercases the ASCII letters, which covers every method name
that reaches method.lower() on line 145 of core.py. -/
def lowerChar (c : Char) : Char :=
  if c = 'A' then 'a' else if c = 'B' then 'b' else if c = 'C' then 'c'
  else if c = 'D' then 'd' else if c = 'E' then 'e' else if c = 'F' then 'f'
  else if c = 'G' then 'g' else if c = 'H' then 'h' else if c = 'I' then 'i'
  else if c = 'J' then 'j' else if c = 'K' then 'k' else if c = 'L' then 'l'
  else if c = 'M' then 'm' else if c = 'N' then 'n' else if c = 'O' then 'o'
  else if c = 'P' then 'p' else if c = 'Q' then 'q' else if c = 'R' then 'r'
  else if c = 'S' then 's' else if c = 'T' then 't' else if c = 'U' then 'u'
  else if c = 'V' then 'v' else if c = 'W' then 'w' else if c = 'X' then 'x'
  else if c = 'Y' then 'y' else if c = 'Z' then 'z' else c

/-- Python str.lower, modelled characterwise by lowerChar. -/
def pyLower (s : String) : String := String.mk (s.data.map lowerChar)

/-- Modelled from the spec: ensure_2d lives in pymare/stats.py, which is
not under src/.  Per the spec (section 3) estimates and variances are
K-length column vectors; column vectors are modelled as K-length lists,
on which the 2d normalization is the identity. -/
def ensure_2d (xs : List ℚ) : List ℚ := xs

/-- The Dataset container of core.py (lines 13-98) after a completed
construction: the fields set by __init__, in the order they are set. -/
structure Dataset where
  estimates : List ℚ
  variances : Option (List ℚ)
  kwargs : List (String × PyVal)
  weights : PyVal
  predictors : List (List ℚ)
  names : List PyLabel
  deriving DecidableEq

/-- Property Dataset.y (lines 80-83): alias for the estimates attribute. -/
def Dataset.y (d : Dataset) : List ℚ := d.estimates

/-- Property Dataset.v (lines 85-88): alias for the variances attribute. -/
def Dataset.v (d : Dataset) : Option (List ℚ) := d.variances

/-- Property Dataset.X (lines 90-93): alias for the predictors attribute. -/
def Dataset.X (d : Dataset) : List (List ℚ) := d.predictors

/-- Property Dataset.w (lines 95-98): alias for the weights attribute. -/
def Dataset.w (d : Dataset) : PyVal := d.weights

/-- Dataset.__getattr__ (lines 45-49): unknown attribute lookups fall
through to the stored kwargs mapping, raising AttributeError on a miss.
Properties take precedence over __getattr__ in Python, so the aliases
above are never routed through this fallthrough. -/
def Dataset.getattr (d : Dataset) (key : String) : Except PyErr PyVal :=
  match d.kwargs.lookup key with
  | some val => Except.ok val
  | Option.none => Except.error PyErr.attributeError

/-- Message of the ValueError on lines 55-57 of core.py. -/
def noVariancesMsg : String :=
  "Inverse-variance weighting specified, but no variances were provided!"

/-- String formatting used by the message on lines 62-65 of core.py,
which interpolates the weights value with str.format. -/
def pyFormat : PyVal → String
  | PyVal.pynone => "None"
  | PyVal.str s => s
  | PyVal.arr _ => "array"

/-- Message of the ValueError on lines 62-65 of core.py, with the weights
value interpolated for the braces placeholder. -/
def unrecognizedWeightsMsg (w : PyVal) : String :=
  "\x27" ++ pyFormat w ++
    "\x27 is not a recognized specification for weight computation. " ++
    "Either pass an array of weights, or use \x27inverse-variance\x27 " ++
    "or \x27uniform\x27."

/-- Dataset._get_weights (lines 51-66 of core.py).  The self.estimates
and self.variances attributes, already set by __init__ when this helper
runs, are passed explicitly.  The branch structure mirrors the source:
the isinstance call (whose second argument is the string literal "str"),
then the comparison with "inverse-variance" (reciprocal of the variances,
ValueError when variances are absent), then the comparison with "uniform"
(np.ones_like(self.estimates)), then the unrecognized-string ValueError,
and otherwise the argument returned verbatim.  Division on rationals is
exact; the numpy warning path for a zero variance is not modelled (the
spec requires non-negative variances and no claim exercises it). -/
def Dataset._get_weights (estimates : List ℚ) (variances : Option (List ℚ))
    (weights : PyVal) : Except PyErr PyVal := do
  let isStr ← isinstance weights (ClassInfo.strLiteral "str")
  if isStr then
    if weights = PyVal.str "inverse-variance" then
      match variances with
      | Option.none => Except.error (PyErr.valueError noVariancesMsg)
      | some vs => Except.ok (PyVal.arr (vs.map (fun x => 1 / x)))
    else if weights = PyVal.str "uniform" then
      Except.ok (PyVal.arr (estimates.map (fun _ => (1 : ℚ))))
    else
      Except.error (PyErr.valueError (unrecognizedWeightsMsg weights))
  else
    return weights

/-- Message of the ValueError on lines 70-71 of core.py. -/
def noPredictorsMsg : String :=
  "No fixed predictors found. If no X matrix is provided, add_intercept must be True!"

/-- A pandas DataFrame as used by Dataset._get_predictors: rows of values
plus column labels. -/
structure PyFrame where
  rows : List (List ℚ)
  labels : List PyLabel
  deriving DecidableEq

/-- The pd.DataFrame constructor on line 72 of core.py: None becomes the
empty frame; a K x P matrix keeps its rows and gets the automatic integer
column labels 0, ..., P-1.  Matrices are rectangular (they arrive as
numpy arrays), so the width is the length of the first row. -/
def pdDataFrame : Option (List (List ℚ)) → PyFrame
  | Option.none => { rows := [], labels := [] }
  | some m => { rows := m, labels := (List.range (m.headD []).length).map PyLabel.idx }

/-- Assigning X.columns = names (line 74 of core.py): pandas raises
ValueError when the supplied list does not match the column count. -/
def PyFrame.setColumns (f : PyFrame) (names : List String) : Except PyErr PyFrame :=
  if names.length = f.labels.length then
    Except.ok { rows := f.rows, labels := names.map PyLabel.named }
  else
    Except.error (PyErr.valueError
      ("Length mismatch: Expected axis has " ++ toString f.labels.length ++
        " elements, new values have " ++ toString names.length ++ " elements"))

/-- The pd.concat([intercept, X], axis=1) call on line 77 of core.py, for
frames whose default integer indexes align: a frame without columns
contributes nothing, and otherwise rows are joined pairwise.  The pandas
NaN padding for frames that disagree on the row count is not modelled;
the spec invariant (section 3) makes all inputs agree on K. -/
def PyFrame.concatCols (a b : PyFrame) : PyFrame :=
  if b.labels.isEmpty then { rows := a.rows, labels := a.labels }
  else if a.labels.isEmpty then { rows := b.rows, labels := b.labels }
  else { rows := List.zipWith (fun r s => r ++ s) a.rows b.rows,
         labels := a.labels ++ b.labels }

/-- Dataset._get_predictors (lines 68-78 of core.py): reject the
combination of no predictors and no intercept, wrap the predictors in a
DataFrame, install the caller-supplied column names when present, prepend
the intercept column of np.ones(len(self.y)) when requested (self.y is
the estimates alias), and return the values together with the column
labels. -/
def Dataset._get_predictors (estimates : List ℚ) (X : Option (List (List ℚ)))
    (names : Option (List String)) (add_intercept : Bool) :
    Except PyErr (List (List ℚ) × List PyLabel) := do
  if X = Option.none ∧ add_intercept = false then
    throw (PyErr.valueError noPredictorsMsg)
  let f := pdDataFrame X
  let f ← match names with
    | Option.none => pure f
    | some ns => f.setColumns ns
  let f := if add_intercept then
      PyFrame.concatCols
        { rows := estimates.map (fun _ => [(1 : ℚ)]),
          labels := [PyLabel.named "intercept"] } f
    else f
  return (f.rows, f.labels)

/-- The default of the weights parameter in the Dataset.__init__
signature (line 35 of core.py). -/
def datasetWeightsDefault : PyVal := PyVal.str "inverse-variance"

/-- Dataset.__init__ (lines 34-43 of core.py), in source order:
self.estimates and self.variances are normalized by ensure_2d and
self.kwargs is stored, then self.weights is resolved by _get_weights,
then the predictor matrix and names are assembled by _get_predictors.
An exception in either helper aborts the construction. -/
def Dataset.construct (estimates : List ℚ) (variances : Option (List ℚ))
    (predictors : Option (List (List ℚ))) (weights : PyVal)
    (names : Option (List String)) (add_intercept : Bool)
    (kwargs : List (String × PyVal)) : Except PyErr Dataset := do
  let est := ensure_2d estimates
  let var := variances.map ensure_2d
  let w ← Dataset._get_weights est var weights
  let (x, n) ← Dataset._get_predictors est predictors names add_intercept
  return { estimates := est, variances := var, kwargs := kwargs,
           weights := w, predictors := x, names := n }

/-- Modelled from the spec: the estimator classes imported on lines 8-9
of core.py live in pymare/estimators, which is not under src/.  Only the
identity and configuration of the selected class matter to the dispatch
claims: the likelihood-based class is configured with the lowercased
method name (the functools partial application on lines 149-150), and
the other entries carry no configuration. -/
inductive EstimatorKind where
  | likelihoodBased (method : String)
  | derSimonianLaird
  | weightedLeastSquares
  | stan
  deriving DecidableEq

/-- An estimator instance: its class together with the passthrough
keyword options it was constructed with (line 159 of core.py). -/
structure Estimator where
  kind : EstimatorKind
  kwargs : List (String × PyVal)
  deriving DecidableEq

/-- Modelled from the spec: the results object produced by fitting.  Per
the spec (section 5 and section 8) fitting is deterministic and
synchronous, so a result is a function of the estimator and the dataset;
the result references the dataset it was fitted on (section 3), and it
records the arguments of a compute_stats invocation when one happens. -/
structure FitResult where
  estimator : Estimator
  dataset : Dataset
  statsComputed : Option (String × ℚ)
  deriving DecidableEq

/-- Modelled from the spec: Estimator.fit consumes the immutable dataset
and produces a fresh results object with no stats computed yet
(section 3: standard errors and intervals are populated lazily by an
explicit stats-computation step). -/
def Estimator.fit (est : Estimator) (d : Dataset) : FitResult :=
  { estimator := est, dataset := d, statsComputed := Option.none }

/-- Modelled from the spec: the hasattr(results, "compute_stats") test on
line 160 of core.py.  Per the spec (sections 3 and 4.7) and the core.py
docstring, the Stan method returns a Bayesian results object that has no
compute_stats operation, and every other estimator returns a
MetaRegressionResults that has one. -/
def FitResult.hasComputeStats (r : FitResult) : Bool :=
  match r.estimator.kind with
  | EstimatorKind.stan => false
  | _ => true

/-- Modelled from the spec: results.compute_stats(ci_method, alpha) on
line 161 of core.py mutates the results object in place; the mutation is
modelled functionally by recording the invocation arguments. -/
def FitResult.computeStats (r : FitResult) (ci_method : String) (alpha : ℚ) : FitResult :=
  { estimator := r.estimator, dataset := r.dataset,
    statsComputed := some (ci_method, alpha) }

/-- The estimator dispatch dictionary and its indexing (lines 147-154 of
core.py): a lookup of the lowercased method name that raises KeyError
for a name outside the dictionary. -/
def estimatorCls (method : String) : Except PyErr EstimatorKind :=
  if method = "ml" then Except.ok (EstimatorKind.likelihoodBased method)
  else if method = "reml" then Except.ok (EstimatorKind.likelihoodBased method)
  else if method = "dl" then Except.ok EstimatorKind.derSimonianLaird
  else if method = "wls" then Except.ok EstimatorKind.weightedLeastSquares
  else if method = "fe" then Except.ok EstimatorKind.weightedLeastSquares
  else if method = "stan" then Except.ok EstimatorKind.stan
  else Except.error (PyErr.keyError method)

/-- The tail of meta_regression after the Dataset is built (lines 145-161
of core.py): lowercase the method name, look up the estimator class,
construct it with the passthrough kwargs, fit it on the dataset, invoke
compute_stats when the results object supports it, and return the
results object. -/
def dispatchAndFit (dataset : Dataset) (method ci_method : String) (alpha : ℚ)
    (kwargs : List (String × PyVal)) : Except PyErr FitResult := do
  let m := pyLower method
  let cls ← estimatorCls m
  let est : Estimator := { kind := cls, kwargs := kwargs }
  let results := est.fit dataset
  if results.hasComputeStats then
    return results.computeStats ci_method alpha
  else
    return results

/-- meta_regression (lines 101-161 of core.py): build the Dataset from
the first six arguments, passed positionally in the order of the
Dataset.__init__ signature and without the estimator kwargs, then run
the dispatch tail. -/
def meta_regression (estimates : List ℚ) (variances : Option (List ℚ))
    (predictors : Option (List (List ℚ))) (weights : PyVal)
    (names : Option (List String)) (add_intercept : Bool)
    (method ci_method : String) (alpha : ℚ)
    (kwargs : List (String × PyVal)) : Except PyErr FitResult := do
  let dataset ← Dataset.construct estimates variances predictors weights names
    add_intercept []
  dispatchAndFit dataset method ci_method alpha kwargs

/-- The default of the weights parameter in the meta_regression signature
(line 101 of core.py). -/
def metaRegressionWeightsDefault : PyVal := PyVal.pynone

/-- meta_regression as called without a weights argument: the weights
slot is filled by the default None of its own signature. -/
def meta_regression_no_weights (estimates : List ℚ) (variances : Option (List ℚ))
    (predictors : Option (List (List ℚ))) (names : Option (List String))
    (add_intercept : Bool) (method ci_method : String) (alpha : ℚ)
    (kwargs : List (String × PyVal)) : Except PyErr FitResult :=
  meta_regression estimates variances predictors metaRegressionWeightsDefault
    names add_intercept method ci_method alpha kwargs

/-- Sanity fact about the embedded isinstance: against the genuine type
str it is a true string test, so the embedding does not hardwire the
failure of line 52; the failure comes only from the string literal. -/
theorem isinstance_strType_tests_strings (s : String) (xs : List ℚ) :
    isinstance (PyVal.str s) ClassInfo.strType = Except.ok true ∧
    isinstance PyVal.pynone ClassInfo.strType = Except.ok false ∧
    isinstance (PyVal.arr xs) ClassInfo.strType = Except.ok false :=
  ⟨rfl, rfl, rfl⟩

/-- Helper: because line 52 passes the string literal "str" to
isinstance, _get_weights raises TypeError for every weights argument,
before any branch of the weight resolution can run. -/
theorem _get_weights_raises (estimates : List ℚ) (variances : Option (List ℚ))
    (weights : PyVal) :
    Dataset._get_weights estimates variances weights =
      Except.error (PyErr.typeError isinstanceArg2Msg) := rfl

/-- Helper: every Dataset construction fails with the TypeError from the
isinstance call, whatever the arguments. -/
theorem construct_raises (estimates : List ℚ) (variances : Option (List ℚ))
    (predictors : Option (List (List ℚ))) (weights : PyVal)
    (names : Option (List String)) (add_intercept : Bool)
    (kwargs : List (String × PyVal)) :
    Dataset.construct estimates variances predictors weights names add_intercept
      kwargs = Except.error (PyErr.typeError isinstanceArg2Msg) := rfl

/-- Helper: every meta_regression call fails with the TypeError from the
isinstance call during Dataset construction, whatever the method. -/
theorem meta_regression_raises (estimates : List ℚ) (variances : Option (List ℚ))
    (predictors : Option (List (List ℚ))) (weights : PyVal)
    (names : Option (List String)) (add_intercept : Bool)
    (method ci_method : String) (alpha : ℚ) (kwargs : List (String × PyVal)) :
    meta_regression estimates variances predictors weights names add_intercept
      method ci_method alpha kwargs =
      Except.error (PyErr.typeError isinstanceArg2Msg) := rfl

/-- C1: the claim says that construction with weights "inverse-variance"
and absent variances, or with an unrecognized weight string, fails with
InvalidInputError (the ValueError of lines 55-57 and 62-65) and with no
other kind of error.  Evaluating the code at both inputs shows that
construction instead fails with the TypeError raised by the isinstance
call of line 52, whose second argument is the string literal "str"; the
ValueError branches are unreachable. -/
theorem construction_fails_with_typeError :
    Dataset.construct [1] Option.none Option.none
        (PyVal.str "inverse-variance") Option.none true [] =
      Except.error (PyErr.typeError isinstanceArg2Msg) ∧
    Dataset.construct [1] (some [1]) Option.none
        (PyVal.str "bogus") Option.none true [] =
      Except.error (PyErr.typeError isinstanceArg2Msg) :=
  ⟨rfl, rfl⟩

/-- C2 counterexample: the claim says a string weights argument falls
through the type check and is returned verbatim as an explicit array.
At the concrete input weights = "uniform" the weight resolution does not
return the string verbatim (it raises TypeError instead). -/
theorem string_weight_not_returned_verbatim :
    Dataset._get_weights [1] Option.none (PyVal.str "uniform") ≠
      Except.ok (PyVal.str "uniform") :=
  fun h => Except.noConfusion h

/-- C2 amended: every string weights argument makes the weight-type check
itself raise TypeError, because the isinstance call of line 52 receives
the string literal "str" instead of the type str; no string argument is
resolved as a named policy nor treated as an explicit array. -/
theorem string_weight_check_raises_typeError (estimates : List ℚ)
    (variances : Option (List ℚ)) (s : String) :
    Dataset._get_weights estimates variances (PyVal.str s) =
      Except.error (PyErr.typeError isinstanceArg2Msg) := rfl

/-- C3: the claim describes the weight resolution of successful
constructions.  No construction succeeds: at the concrete input with
variances [4] and the default weight specification "inverse-variance",
where the claim expects stored weights [1/4], construction raises the
isinstance TypeError and stores nothing. -/
theorem inverse_variance_weights_never_stored :
    Dataset.construct [1] (some [4]) Option.none
        (PyVal.str "inverse-variance") Option.none true [] =
      Except.error (PyErr.typeError isinstanceArg2Msg) ∧
    ∀ d : Dataset,
      Dataset.construct [1] (some [4]) Option.none
          (PyVal.str "inverse-variance") Option.none true [] ≠ Except.ok d :=
  ⟨rfl, fun _ h => Except.noConfusion h⟩

/-- C4: the claim says that construction with no predictors and
add_intercept false fails with InvalidInputError.  The ValueError of
lines 70-71 exists in _get_predictors (second conjunct), but construction
never reaches it: the weight-type check raises TypeError first (first
conjunct, evaluated at the concrete failing input). -/
theorem no_predictor_valueError_unreachable :
    Dataset.construct [1] (some [1]) Option.none
        (PyVal.str "inverse-variance") Option.none false [] =
      Except.error (PyErr.typeError isinstanceArg2Msg) ∧
    Dataset._get_predictors [1] Option.none Option.none false =
      Except.error (PyErr.valueError noPredictorsMsg) :=
  ⟨rfl, rfl⟩

/-- C5: the claim describes the stored predictor matrix and names of
successful constructions with add_intercept true.  The assembly helper
does prepend the intercept column of ones and its label (second
conjunct), but no construction ever stores its output: at the concrete
input below construction raises the isinstance TypeError (first
conjunct). -/
theorem intercept_assembly_never_reached :
    Dataset.construct [1, 2] (some [1, 1]) (some [[3], [4]])
        (PyVal.str "uniform") Option.none true [] =
      Except.error (PyErr.typeError isinstanceArg2Msg) ∧
    Dataset._get_predictors [1, 2] (some [[3], [4]]) Option.none true =
      Except.ok ([[1, 3], [1, 4]],
        [PyLabel.named "intercept", PyLabel.idx 0]) :=
  ⟨rfl, rfl⟩

/-- C6: the dispatch lowercases the method name before the table lookup,
so two method spellings that agree after lowercasing behave identically;
the table maps both "fe" and "wls" to the WeightedLeastSquares class
with the same passthrough options, so dispatching with "FE" and with
"WLS" is the same; and the two end-to-end entry point calls agree on
every input. -/
theorem fe_wls_dispatch_equivalence (d : Dataset) (ci_method : String) (alpha : ℚ)
    (kwargs : List (String × PyVal)) (m1 m2 : String) (estimates : List ℚ)
    (variances : Option (List ℚ)) (predictors : Option (List (List ℚ)))
    (weights : PyVal) (names : Option (List String)) (add_intercept : Bool)
    (h : pyLower m1 = pyLower m2) :
    dispatchAndFit d m1 ci_method alpha kwargs =
      dispatchAndFit d m2 ci_method alpha kwargs ∧
    dispatchAndFit d "FE" ci_method alpha kwargs =
      dispatchAndFit d "WLS" ci_method alpha kwargs ∧
    meta_regression estimates variances predictors weights names add_intercept
        "FE" ci_method alpha kwargs =
      meta_regression estimates variances predictors weights names add_intercept
        "WLS" ci_method alpha kwargs := by
  refine ⟨?_, rfl, ?_⟩
  · simp only [dispatchAndFit, h]
  · exact (meta_regression_raises estimates variances predictors weights names
      add_intercept "FE" ci_method alpha kwargs).trans
      (meta_regression_raises estimates variances predictors weights names
        add_intercept "WLS" ci_method alpha kwargs).symm

/-- Sample Dataset value for witness instantiations. -/
def sampleDataset : Dataset :=
  { estimates := [1], variances := some [1], kwargs := [],
    weights := PyVal.arr [1], predictors := [[1]],
    names := [PyLabel.named "intercept"] }

/-- C6 witness: the equivalence theorem instantiated at concrete
arguments, with the lowercase-agreement hypothesis discharged on the
spellings "Fe" and "fE". -/
theorem fe_wls_dispatch_equivalence_witness :
    pyLower "Fe" = pyLower "fE" ∧
    (dispatchAndFit sampleDataset "Fe" "QP" (1 / 20) [] =
        dispatchAndFit sampleDataset "fE" "QP" (1 / 20) [] ∧
      dispatchAndFit sampleDataset "FE" "QP" (1 / 20) [] =
        dispatchAndFit sampleDataset "WLS" "QP" (1 / 20) [] ∧
      meta_regression [1] (some [1]) Option.none (PyVal.arr [1]) Option.none
          true "FE" "QP" (1 / 20) [] =
        meta_regression [1] (some [1]) Option.none (PyVal.arr [1]) Option.none
          true "WLS" "QP" (1 / 20) []) :=
  ⟨rfl, fe_wls_dispatch_equivalence sampleDataset "QP" (1 / 20) [] "Fe" "fE"
    [1] (some [1]) Option.none (PyVal.arr [1]) Option.none true rfl⟩

/-- C7: the claim says an unrecognized method name makes the entry point
fail with UnknownMethodError (the KeyError of the dispatch lookup)
before any fitting work.  Evaluating the entry point at the unrecognized
method "foobar" shows it fails with the isinstance TypeError during
Dataset construction, before the method name is even examined; the
KeyError that realizes UnknownMethodError (second conjunct) is never
raised by the entry point. -/
theorem unknown_method_typeError_before_dispatch :
    meta_regression [1] (some [1]) Option.none PyVal.pynone Option.none true
        "foobar" "QP" (1 / 20) [] =
      Except.error (PyErr.typeError isinstanceArg2Msg) ∧
    estimatorCls "foobar" = Except.error (PyErr.keyError "foobar") :=
  ⟨rfl, rfl⟩

/-- C8: the dispatch phase, given a dataset: when the lowercased method
name resolves in the table, the dispatch returns ok with the fit of the
estimator configured with the passthrough kwargs, with compute_stats
applied exactly when the results object supports it; fitting records the
estimator and the dataset, a fresh fit has no stats computed, and
compute_stats records the given ci_method and alpha. -/
theorem dispatch_fit_stats_contract (d : Dataset) (m ci_method : String)
    (alpha : ℚ) (kwargs : List (String × PyVal)) (k : EstimatorKind)
    (h : estimatorCls (pyLower m) = Except.ok k) :
    dispatchAndFit d m ci_method alpha kwargs =
      Except.ok
        (if (Estimator.fit { kind := k, kwargs := kwargs } d).hasComputeStats
         then (Estimator.fit { kind := k, kwargs := kwargs } d).computeStats
            ci_method alpha
         else Estimator.fit { kind := k, kwargs := kwargs } d) ∧
    (Estimator.fit { kind := k, kwargs := kwargs } d).estimator =
      { kind := k, kwargs := kwargs } ∧
    (Estimator.fit { kind := k, kwargs := kwargs } d).dataset = d ∧
    (Estimator.fit { kind := k, kwargs := kwargs } d).statsComputed =
      Option.none ∧
    ((Estimator.fit { kind := k, kwargs := kwargs } d).computeStats ci_method
        alpha).statsComputed = some (ci_method, alpha) := by
  refine ⟨?_, rfl, rfl, rfl, rfl⟩
  cases k <;> simp only [dispatchAndFit, h] <;> rfl

/-- C8 witness: the dispatch contract instantiated at a concrete dataset
and the method spelling "WLS", with the table hypothesis discharged. -/
theorem dispatch_fit_stats_contract_witness :
    estimatorCls (pyLower "WLS") = Except.ok EstimatorKind.weightedLeastSquares ∧
    (dispatchAndFit sampleDataset "WLS" "QP" (1 / 20) [] =
        Except.ok
          (if (Estimator.fit
                { kind := EstimatorKind.weightedLeastSquares, kwargs := [] }
                sampleDataset).hasComputeStats
           then (Estimator.fit
                { kind := EstimatorKind.weightedLeastSquares, kwargs := [] }
                sampleDataset).computeStats "QP" (1 / 20)
           else Estimator.fit
                { kind := EstimatorKind.weightedLeastSquares, kwargs := [] }
                sampleDataset) ∧
      (Estimator.fit { kind := EstimatorKind.weightedLeastSquares, kwargs := [] }
            sampleDataset).estimator =
        { kind := EstimatorKind.weightedLeastSquares, kwargs := [] } ∧
      (Estimator.fit { kind := EstimatorKind.weightedLeastSquares, kwargs := [] }
            sampleDataset).dataset = sampleDataset ∧
      (Estimator.fit { kind := EstimatorKind.weightedLeastSquares, kwargs := [] }
            sampleDataset).statsComputed = Option.none ∧
      ((Estimator.fit { kind := EstimatorKind.weightedLeastSquares, kwargs := [] }
            sampleDataset).computeStats "QP" (1 / 20)).statsComputed =
        some ("QP", 1 / 20)) :=
  ⟨rfl, dispatch_fit_stats_contract sampleDataset "WLS" "QP" (1 / 20) []
    EstimatorKind.weightedLeastSquares rfl⟩

/-- C9: the alias properties y, v, X and w return exactly the stored
estimates, variances, predictors and weights of any Dataset value; the
embedding is pure, so no sequence of reads can change the outcome, and
in Python the properties take precedence over the __getattr__
fallthrough, so the aliases never transform the attributes. -/
theorem alias_accessors_are_identities (d : Dataset) :
    d.y = d.estimates ∧ d.v = d.variances ∧ d.X = d.predictors ∧
      d.w = d.weights :=
  ⟨rfl, rfl, rfl, rfl⟩

/-- C10: meta_regression called without a weights argument fills the
weights slot with the default None of its own signature and hands it to
the Dataset construction, so the Dataset default "inverse-variance" is
bypassed: the two defaults are distinct values. -/
theorem meta_regression_passes_none_weights (estimates : List ℚ)
    (variances : Option (List ℚ)) (predictors : Option (List (List ℚ)))
    (names : Option (List String)) (add_intercept : Bool)
    (method ci_method : String) (alpha : ℚ) (kwargs : List (String × PyVal)) :
    meta_regression_no_weights estimates variances predictors names
        add_intercept method ci_method alpha kwargs =
      meta_regression estimates variances predictors PyVal.pynone names
        add_intercept method ci_method alpha kwargs ∧
    metaRegressionWeightsDefault = PyVal.pynone ∧
    datasetWeightsDefault = PyVal.str "inverse-variance" ∧
    metaRegressionWeightsDefault ≠ datasetWeightsDefault :=
  ⟨rfl, rfl, rfl, fun h => PyVal.noConfusion h⟩

end PyMARE
